import Mathlib

/-!
Verification of the points-management backend (`main.py`).

The persisted tables (SQLAlchemy models `UserBalance`, `PointHistory`,
`RedeemableItem`, `RedemptionHistory`) are embedded as Lean structures, the
database as lists of rows, and the FastAPI handlers as pure functions from a
database state to an `Except` result.  Timestamps are modelled as natural
numbers; `datetime.now()` / the column defaults become an explicit `now`
argument, and the auto-increment ids of freshly inserted rows become explicit
`rid` / `hid` arguments.  The SQLAlchemy session (autocommit off, every change
staged and applied by the single `db.commit()` at the end of a handler, the
session discarded on any exception by `get_db`'s `finally: db.close()`) is
modelled by building the fully mutated state and committing it atomically: a
`commitOk` flag decides whether `db.commit()` succeeds, a failed commit
surfaces `storageFailure` and persists nothing.
-/

namespace PointBack

/-- Row of table `user_balance` (`class UserBalance` in `main.py`). -/
structure UserBalance where
  id : Nat
  user_id : Nat
  current_points : Int
  scheduled_points : Int
  expiring_points : Int
  updated_at : Nat
deriving Repr, DecidableEq

/-- Row of table `point_history` (`class PointHistory` in `main.py`). -/
structure PointHistory where
  id : Nat
  user_id : Nat
  date : Nat
  description : String
  points : Int
  remarks : Option String
deriving Repr, DecidableEq

/-- Row of table `redeemable_items` (`class RedeemableItem` in `main.py`). -/
structure RedeemableItem where
  id : Nat
  name : String
  points_required : Int
deriving Repr, DecidableEq

/-- Row of table `redemption_history` (`class RedemptionHistory` in `main.py`). -/
structure RedemptionHistory where
  id : Nat
  user_id : Nat
  item_id : Nat
  date : Nat
  points_spent : Int
deriving Repr, DecidableEq

/-- The persisted database state: one list of rows per table. -/
structure DB where
  balances : List UserBalance
  point_history : List PointHistory
  items : List RedeemableItem
  redemption_history : List RedemptionHistory
deriving Repr, DecidableEq

/-- Body of `POST /use-points` (`class UsePointsRequest` in `main.py`). -/
structure UsePointsRequest where
  user_id : Nat
  item_id : Nat
  points : Int
deriving Repr, DecidableEq

/-- Error outcomes raised by the handlers: the three `HTTPException`s of
`main.py` plus a failed `db.commit()` (connection loss, constraint violation,
transaction abort). -/
inductive ApiError where
  | itemNotFound
  | userNotFound
  | insufficientPoints
  | storageFailure
deriving Repr, DecidableEq

/-- HTTP status each error is surfaced with: the `status_code` arguments of the
`HTTPException`s in `main.py`; a failed commit is an unhandled exception, a 500. -/
def statusCode : ApiError → Nat
  | .itemNotFound => 404
  | .userNotFound => 404
  | .insufficientPoints => 400
  | .storageFailure => 500

/-- Response of `GET /users/{user_id}/balance` (`class BalanceResponse`):
the shape has no `scheduled_points` field. -/
structure BalanceResponse where
  user_id : Nat
  current_points : Int
  expiring_points : Int
deriving Repr, DecidableEq

/-- `db.query(RedeemableItem).filter(RedeemableItem.id == item_id).first()`. -/
def findItem (db : DB) (item_id : Nat) : Option RedeemableItem :=
  db.items.find? (fun i => i.id == item_id)

/-- `db.query(UserBalance).filter(UserBalance.user_id == user_id).first()`. -/
def findBalance (db : DB) (user_id : Nat) : Option UserBalance :=
  db.balances.find? (fun b => b.user_id == user_id)

/-- In-place ORM mutation of the first `user_balance` row matching `user_id`
(the row object returned by `.first()` is mutated, later rows are untouched). -/
def updateFirstBalance (l : List UserBalance) (uid : Nat)
    (f : UserBalance → UserBalance) : List UserBalance :=
  match l with
  | [] => []
  | b :: rest =>
    if b.user_id == uid then f b :: rest else b :: updateFirstBalance rest uid f

/-- The mutation phase shared by both redemption handlers: decrement the found
balance row by `amount` (the `onupdate=datetime.utcnow` column advances
`updated_at`), append one `RedemptionHistory` row with `points_spent = amount`,
and append one `PointHistory` row with `description = f"{item.name}と交換"`,
`points = -amount` and the given `remarks`. -/
def applyRedemption (db : DB) (uid iid : Nat) (amount : Int)
    (item : RedeemableItem) (remarks : Option String)
    (now rid hid : Nat) : DB :=
  { db with
    balances := updateFirstBalance db.balances uid
      (fun b => { b with current_points := b.current_points - amount,
                         updated_at := now }),
    redemption_history := db.redemption_history ++
      [{ id := rid, user_id := uid, item_id := iid, date := now,
         points_spent := amount }],
    point_history := db.point_history ++
      [{ id := hid, user_id := uid, date := now,
         description := item.name ++ "と交換", points := -amount,
         remarks := remarks }] }

/-- `POST /users/{user_id}/redeem/{item_id}` (`redeem_points_legacy` in
`main.py`): fixed-price redemption debiting `item.points_required`; the
inserted `PointHistory` row has no `remarks`.  Returns the response field
`new_balance` alongside the committed state. -/
def redeem_points_legacy (db : DB) (user_id item_id : Nat)
    (now rid hid : Nat) (commitOk : Bool) : Except ApiError (DB × Int) :=
  match findItem db item_id with
  | none => .error .itemNotFound
  | some item =>
    match findBalance db user_id with
    | none => .error .userNotFound
    | some balance =>
      if balance.current_points < item.points_required then
        .error .insufficientPoints
      else
        let pending := applyRedemption db user_id item_id item.points_required
          item none now rid hid
        if commitOk then .ok (pending, balance.current_points - item.points_required)
        else .error .storageFailure

/-- `POST /use-points` (`use_points` in `main.py`): flexible-amount redemption
debiting `request.points`; the inserted `PointHistory` row carries
`remarks = f"アイテム交換: {item.name}"`.  Returns the response field
`remaining_points` alongside the committed state. -/
def use_points (db : DB) (request : UsePointsRequest)
    (now rid hid : Nat) (commitOk : Bool) : Except ApiError (DB × Int) :=
  match findItem db request.item_id with
  | none => .error .itemNotFound
  | some item =>
    match findBalance db request.user_id with
    | none => .error .userNotFound
    | some balance =>
      if balance.current_points < request.points then
        .error .insufficientPoints
      else
        let pending := applyRedemption db request.user_id request.item_id
          request.points item (some ("アイテム交換: " ++ item.name)) now rid hid
        if commitOk then .ok (pending, balance.current_points - request.points)
        else .error .storageFailure

/-- The database state persisted after a handler run: an `HTTPException` or a
failed commit leaves the stored state untouched (the session is rolled back and
closed), a successful commit persists the mutated state. -/
def persistedState (db : DB) (r : Except ApiError (DB × Int)) : DB :=
  match r with
  | .error _ => db
  | .ok (db2, _) => db2

/-- `GET /users/{user_id}/balance` (`get_user_balance` in `main.py`): 404 when
no `user_balance` row matches, otherwise the three-field response. -/
def get_user_balance (db : DB) (user_id : Nat) : Except ApiError BalanceResponse :=
  match findBalance db user_id with
  | none => .error .userNotFound
  | some balance =>
    .ok { user_id := user_id,
          current_points := balance.current_points,
          expiring_points := balance.expiring_points }

/-- Ordering used by `ORDER BY date DESC`: later dates first. -/
def histDesc (a b : PointHistory) : Prop := b.date ≤ a.date

instance : DecidableRel histDesc := fun a b => Nat.decLe b.date a.date

instance : IsTotal PointHistory histDesc :=
  ⟨fun a b => Nat.le_total b.date a.date⟩

instance : IsTrans PointHistory histDesc :=
  ⟨fun _ _ _ hab hbc => Nat.le_trans hbc hab⟩

/-- `GET /users/{user_id}/point-history` (`get_point_history` in `main.py`):
filter the user's rows, optionally restrict by `filter_type` (`"earned"`:
`points > 0`, `"used"`: `points < 0`, anything else: no restriction), order by
`date` descending, and apply `.limit(limit)` only when `limit` is truthy in
Python (`if limit:`), i.e. neither `None` nor `0`. -/
def get_point_history (db : DB) (user_id : Nat) (limit : Option Int)
    (filter_type : Option String) : List PointHistory :=
  let q1 := db.point_history.filter (fun h => h.user_id == user_id)
  let q2 :=
    if filter_type == some "earned" then q1.filter (fun h => decide (0 < h.points))
    else if filter_type == some "used" then q1.filter (fun h => decide (h.points < 0))
    else q1
  let q3 := List.insertionSort histDesc q2
  match limit with
  | none => q3
  | some n => if n == 0 then q3 else q3.take n.toNat

/-- The FastAPI `Query(5, ...)` default: calling the endpoint without a `limit`
query parameter runs the handler with `limit = 5`. -/
def get_point_history_default (db : DB) (user_id : Nat)
    (filter_type : Option String) : List PointHistory :=
  get_point_history db user_id (some 5) filter_type

/-- The user's stored `current_points`, when a balance row exists. -/
def balanceOf (db : DB) (uid : Nat) : Option Int :=
  (findBalance db uid).map (fun b => b.current_points)

/-- The error carried by a failed handler run, `none` on success. -/
def errorOf (r : Except ApiError (DB × Int)) : Option ApiError :=
  match r with
  | .error e => some e
  | .ok _ => none

/-- The points value in the success payload (`new_balance` for the legacy
handler, `remaining_points` for `use_points`), `none` on failure. -/
def returnedPoints (r : Except ApiError (DB × Int)) : Option Int :=
  match r with
  | .error _ => none
  | .ok (_, n) => some n

/-- The committed database state of a successful run, `none` on failure. -/
def committedState (r : Except ApiError (DB × Int)) : Option DB :=
  match r with
  | .error _ => none
  | .ok (db2, _) => some db2

/-- Sample catalog item used to instantiate theorems on concrete data. -/
def item1 : RedeemableItem :=
  { id := 1, name := "A", points_required := 30 }

/-- Sample balance row (user 1, 100 points, non-zero `scheduled_points`). -/
def bal1 : UserBalance :=
  { id := 1, user_id := 1, current_points := 100, scheduled_points := 7,
    expiring_points := 3, updated_at := 0 }

/-- Sample database: one item, one balance row, empty histories. -/
def db1 : DB :=
  { balances := [bal1], point_history := [], items := [item1],
    redemption_history := [] }

theorem updateFirstBalance_find? (l : List UserBalance) (uid : Nat)
    (f : UserBalance → UserBalance) (hf : ∀ x, (f x).user_id = x.user_id)
    (b : UserBalance) (hb : l.find? (fun x => x.user_id == uid) = some b) :
    (updateFirstBalance l uid f).find? (fun x => x.user_id == uid) = some (f b) := by
  induction l with
  | nil => simp [List.find?] at hb
  | cons a rest ih =>
    by_cases h : a.user_id = uid
    · rw [List.find?_cons_of_pos _ (by simpa using h)] at hb
      cases hb
      unfold updateFirstBalance
      rw [if_pos (by simpa using h)]
      exact List.find?_cons_of_pos _ (by simp [hf, h])
    · rw [List.find?_cons_of_neg _ (by simpa using h)] at hb
      unfold updateFirstBalance
      rw [if_neg (by simpa using h)]
      rw [List.find?_cons_of_neg _ (by simpa using h)]
      exact ih hb

theorem balanceOf_applyRedemption (db : DB) (uid iid : Nat) (amount : Int)
    (item : RedeemableItem) (rem : Option String) (now rid hid : Nat)
    (bal : UserBalance) (hb : findBalance db uid = some bal) :
    balanceOf (applyRedemption db uid iid amount item rem now rid hid) uid =
      some (bal.current_points - amount) := by
  unfold balanceOf findBalance applyRedemption
  unfold findBalance at hb
  dsimp only
  rw [updateFirstBalance_find? db.balances uid
    (fun b => { b with current_points := b.current_points - amount, updated_at := now })
    (fun x => rfl) bal hb]
  rfl

theorem use_points_ok_of_le (db : DB) (uid iid : Nat) (amount : Int)
    (item : RedeemableItem) (bal : UserBalance) (now rid hid : Nat)
    (hi : findItem db iid = some item)
    (hb : findBalance db uid = some bal)
    (hle : amount ≤ bal.current_points) :
    use_points db ⟨uid, iid, amount⟩ now rid hid true =
      .ok (applyRedemption db uid iid amount item
        (some ("アイテム交換: " ++ item.name)) now rid hid,
        bal.current_points - amount) := by
  unfold use_points
  dsimp only
  rw [hi, hb]
  dsimp only
  rw [if_neg (not_lt.mpr hle)]
  rfl

theorem legacy_ok_of_le (db : DB) (uid iid : Nat)
    (item : RedeemableItem) (bal : UserBalance) (now rid hid : Nat)
    (hi : findItem db iid = some item)
    (hb : findBalance db uid = some bal)
    (hle : item.points_required ≤ bal.current_points) :
    redeem_points_legacy db uid iid now rid hid true =
      .ok (applyRedemption db uid iid item.points_required item none now rid hid,
        bal.current_points - item.points_required) := by
  unfold redeem_points_legacy
  rw [hi, hb]
  dsimp only
  rw [if_neg (not_lt.mpr hle)]
  rfl

/-- C1: for an item and a user balance present in storage and a debit amount
with `amount ≤ current_points`, a successful redemption — flexible-amount with
`points = amount`, or legacy fixed-price when `amount = item.points_required` —
decreases that user's `current_points` by exactly `amount`, appends exactly one
new `RedemptionHistory` row with `points_spent = amount` and exactly one new
`PointHistory` row with `points = -amount`, and returns the new
`current_points` value (`remaining_points` / `new_balance` =
old `current_points` - `amount`). -/
theorem redemption_debits_exactly (db : DB) (uid iid : Nat) (amount : Int)
    (item : RedeemableItem) (bal : UserBalance) (now rid hid : Nat)
    (hi : findItem db iid = some item)
    (hb : findBalance db uid = some bal)
    (hle : amount ≤ bal.current_points) :
    (∃ db2, use_points db ⟨uid, iid, amount⟩ now rid hid true =
        .ok (db2, bal.current_points - amount) ∧
      balanceOf db2 uid = some (bal.current_points - amount) ∧
      db2.redemption_history = db.redemption_history ++
        [{ id := rid, user_id := uid, item_id := iid, date := now,
           points_spent := amount }] ∧
      db2.point_history = db.point_history ++
        [{ id := hid, user_id := uid, date := now,
           description := item.name ++ "と交換", points := -amount,
           remarks := some ("アイテム交換: " ++ item.name) }]) ∧
    (amount = item.points_required →
      ∃ db3, redeem_points_legacy db uid iid now rid hid true =
          .ok (db3, bal.current_points - amount) ∧
        balanceOf db3 uid = some (bal.current_points - amount) ∧
        db3.redemption_history = db.redemption_history ++
          [{ id := rid, user_id := uid, item_id := iid, date := now,
             points_spent := amount }] ∧
        db3.point_history = db.point_history ++
          [{ id := hid, user_id := uid, date := now,
             description := item.name ++ "と交換", points := -amount,
             remarks := none }]) := by
  constructor
  · exact ⟨applyRedemption db uid iid amount item
      (some ("アイテム交換: " ++ item.name)) now rid hid,
      use_points_ok_of_le db uid iid amount item bal now rid hid hi hb hle,
      balanceOf_applyRedemption db uid iid amount item _ now rid hid bal hb,
      rfl, rfl⟩
  · intro ha
    subst ha
    exact ⟨applyRedemption db uid iid item.points_required item none now rid hid,
      legacy_ok_of_le db uid iid item bal now rid hid hi hb hle,
      balanceOf_applyRedemption db uid iid item.points_required item none now rid hid bal hb,
      rfl, rfl⟩

/-- Witness for C1: user 1 with 100 points redeems item 1 (worth 30 points)
for 30 points under both request shapes. -/
theorem redemption_debits_exactly_witness :
    (∃ db2, use_points db1 ⟨1, 1, 30⟩ 5 2 3 true =
        .ok (db2, bal1.current_points - 30) ∧
      balanceOf db2 1 = some (bal1.current_points - 30) ∧
      db2.redemption_history = db1.redemption_history ++
        [{ id := 2, user_id := 1, item_id := 1, date := 5, points_spent := 30 }] ∧
      db2.point_history = db1.point_history ++
        [{ id := 3, user_id := 1, date := 5,
           description := item1.name ++ "と交換", points := -30,
           remarks := some ("アイテム交換: " ++ item1.name) }]) ∧
    ((30 : Int) = item1.points_required →
      ∃ db3, redeem_points_legacy db1 1 1 5 2 3 true =
          .ok (db3, bal1.current_points - 30) ∧
        balanceOf db3 1 = some (bal1.current_points - 30) ∧
        db3.redemption_history = db1.redemption_history ++
          [{ id := 2, user_id := 1, item_id := 1, date := 5, points_spent := 30 }] ∧
        db3.point_history = db1.point_history ++
          [{ id := 3, user_id := 1, date := 5,
             description := item1.name ++ "と交換", points := -30,
             remarks := none }]) :=
  redemption_debits_exactly db1 1 1 30 item1 bal1 5 2 3 rfl rfl (by decide)

theorem use_points_state_cases (db : DB) (uid iid : Nat) (amount : Int)
    (now rid hid : Nat) (ck : Bool) :
    persistedState db (use_points db ⟨uid, iid, amount⟩ now rid hid ck) = db ∨
    (ck = true ∧ ∃ item, findItem db iid = some item ∧
      persistedState db (use_points db ⟨uid, iid, amount⟩ now rid hid ck) =
        applyRedemption db uid iid amount item
          (some ("アイテム交換: " ++ item.name)) now rid hid) := by
  unfold use_points persistedState
  dsimp only
  cases hi : findItem db iid with
  | none => left; rfl
  | some item =>
    cases hb : findBalance db uid with
    | none => left; rfl
    | some bal =>
      dsimp only
      by_cases hcmp : bal.current_points < amount
      · rw [if_pos hcmp]; left; rfl
      · rw [if_neg hcmp]
        cases ck with
        | false => left; rfl
        | true => right; exact ⟨rfl, item, rfl, rfl⟩

theorem legacy_state_cases (db : DB) (uid iid : Nat)
    (now rid hid : Nat) (ck : Bool) :
    persistedState db (redeem_points_legacy db uid iid now rid hid ck) = db ∨
    (ck = true ∧ ∃ item, findItem db iid = some item ∧
      persistedState db (redeem_points_legacy db uid iid now rid hid ck) =
        applyRedemption db uid iid item.points_required item none now rid hid) := by
  unfold redeem_points_legacy persistedState
  cases hi : findItem db iid with
  | none => left; rfl
  | some item =>
    cases hb : findBalance db uid with
    | none => left; rfl
    | some bal =>
      dsimp only
      by_cases hcmp : bal.current_points < item.points_required
      · rw [if_pos hcmp]; left; rfl
      · rw [if_neg hcmp]
        cases ck with
        | false => left; rfl
        | true => right; exact ⟨rfl, item, rfl, rfl⟩

/-- C2: the redemption unit of work is all-or-nothing.  For every execution of
either redemption handler, the persisted state is either exactly the state
before the call (every failure, in particular a failed commit, rolls the whole
unit back) or exactly the fully mutated state `applyRedemption` — the balance
decrement together with both audit inserts; no partial combination is ever
persisted. -/
theorem redemption_atomic (db : DB) (uid iid : Nat) (amount : Int)
    (now rid hid : Nat) (ck : Bool) :
    (ck = false →
      persistedState db (use_points db ⟨uid, iid, amount⟩ now rid hid ck) = db ∧
      persistedState db (redeem_points_legacy db uid iid now rid hid ck) = db) ∧
    (persistedState db (use_points db ⟨uid, iid, amount⟩ now rid hid ck) = db ∨
      ∃ item, findItem db iid = some item ∧
        persistedState db (use_points db ⟨uid, iid, amount⟩ now rid hid ck) =
          applyRedemption db uid iid amount item
            (some ("アイテム交換: " ++ item.name)) now rid hid) ∧
    (persistedState db (redeem_points_legacy db uid iid now rid hid ck) = db ∨
      ∃ item, findItem db iid = some item ∧
        persistedState db (redeem_points_legacy db uid iid now rid hid ck) =
          applyRedemption db uid iid item.points_required item none now rid hid) := by
  refine ⟨?_, ?_, ?_⟩
  · intro hck
    subst hck
    constructor
    · rcases use_points_state_cases db uid iid amount now rid hid false with h | ⟨hc, _⟩
      · exact h
      · cases hc
    · rcases legacy_state_cases db uid iid now rid hid false with h | ⟨hc, _⟩
      · exact h
      · cases hc
  · rcases use_points_state_cases db uid iid amount now rid hid ck with h | ⟨_, h⟩
    · exact Or.inl h
    · exact Or.inr h
  · rcases legacy_state_cases db uid iid now rid hid ck with h | ⟨_, h⟩
    · exact Or.inl h
    · exact Or.inr h

/-- Witness for C2: with a failing commit, both handlers leave the stored state
untouched. -/
theorem redemption_atomic_witness :
    persistedState db1 (use_points db1 ⟨1, 1, 30⟩ 5 2 3 false) = db1 ∧
    persistedState db1 (redeem_points_legacy db1 1 1 5 2 3 false) = db1 :=
  (redemption_atomic db1 1 1 30 5 2 3 false).1 rfl

/-- C3: when the item and the user balance exist but the debit amount exceeds
`current_points` (`current_points < amount`), both redemption shapes report
`insufficientPoints` — surfaced as HTTP 400 — and persist no mutation at all:
the stored state (balances, redemption records, point history) is unchanged. -/
theorem insufficient_points_rejected (db : DB) (uid iid : Nat) (amount : Int)
    (item : RedeemableItem) (bal : UserBalance) (now rid hid : Nat) (ck : Bool)
    (hi : findItem db iid = some item)
    (hb : findBalance db uid = some bal)
    (hgt : bal.current_points < amount) :
    use_points db ⟨uid, iid, amount⟩ now rid hid ck = .error .insufficientPoints ∧
    persistedState db (use_points db ⟨uid, iid, amount⟩ now rid hid ck) = db ∧
    statusCode .insufficientPoints = 400 ∧
    (bal.current_points < item.points_required →
      redeem_points_legacy db uid iid now rid hid ck = .error .insufficientPoints ∧
      persistedState db (redeem_points_legacy db uid iid now rid hid ck) = db) := by
  have h1 : use_points db ⟨uid, iid, amount⟩ now rid hid ck =
      .error .insufficientPoints := by
    unfold use_points
    dsimp only
    rw [hi, hb]
    dsimp only
    rw [if_pos hgt]
  refine ⟨h1, by rw [h1]; rfl, rfl, ?_⟩
  intro hgt2
  have h2 : redeem_points_legacy db uid iid now rid hid ck =
      .error .insufficientPoints := by
    unfold redeem_points_legacy
    rw [hi, hb]
    dsimp only
    rw [if_pos hgt2]
  exact ⟨h2, by rw [h2]; rfl⟩

/-- Witness for C3: user 1 holds 100 points and asks to spend 1000. -/
theorem insufficient_points_rejected_witness :
    use_points db1 ⟨1, 1, 1000⟩ 5 2 3 true = .error .insufficientPoints ∧
    persistedState db1 (use_points db1 ⟨1, 1, 1000⟩ 5 2 3 true) = db1 ∧
    statusCode .insufficientPoints = 400 ∧
    (bal1.current_points < item1.points_required →
      redeem_points_legacy db1 1 1 5 2 3 true = .error .insufficientPoints ∧
      persistedState db1 (redeem_points_legacy db1 1 1 5 2 3 true) = db1) :=
  insufficient_points_rejected db1 1 1 1000 item1 bal1 5 2 3 true rfl rfl (by decide)

/-- C4: a redemption request (either shape) whose `item_id` matches no
`RedeemableItem` reports `itemNotFound`; when the item exists but the
`user_id` has no balance row it reports `userNotFound`; both are surfaced as
HTTP 404, no mutation is persisted in either case, and — the item being
resolved first — a missing item wins regardless of the user (so with both
absent the result is `itemNotFound`). -/
theorem redemption_not_found (db : DB) (uid iid : Nat) (amount : Int)
    (now rid hid : Nat) (ck : Bool) :
    (findItem db iid = none →
      use_points db ⟨uid, iid, amount⟩ now rid hid ck = .error .itemNotFound ∧
      redeem_points_legacy db uid iid now rid hid ck = .error .itemNotFound) ∧
    (∀ item, findItem db iid = some item → findBalance db uid = none →
      use_points db ⟨uid, iid, amount⟩ now rid hid ck = .error .userNotFound ∧
      redeem_points_legacy db uid iid now rid hid ck = .error .userNotFound) ∧
    (findItem db iid = none ∨ findBalance db uid = none →
      persistedState db (use_points db ⟨uid, iid, amount⟩ now rid hid ck) = db ∧
      persistedState db (redeem_points_legacy db uid iid now rid hid ck) = db) ∧
    statusCode .itemNotFound = 404 ∧ statusCode .userNotFound = 404 := by
  have hu1 : findItem db iid = none →
      use_points db ⟨uid, iid, amount⟩ now rid hid ck = .error .itemNotFound := by
    intro h
    unfold use_points
    dsimp only
    rw [h]
  have hl1 : findItem db iid = none →
      redeem_points_legacy db uid iid now rid hid ck = .error .itemNotFound := by
    intro h
    unfold redeem_points_legacy
    rw [h]
  have hu2 : ∀ item, findItem db iid = some item → findBalance db uid = none →
      use_points db ⟨uid, iid, amount⟩ now rid hid ck = .error .userNotFound := by
    intro item h1 h2
    unfold use_points
    dsimp only
    rw [h1]
    dsimp only
    rw [h2]
  have hl2 : ∀ item, findItem db iid = some item → findBalance db uid = none →
      redeem_points_legacy db uid iid now rid hid ck = .error .userNotFound := by
    intro item h1 h2
    unfold redeem_points_legacy
    rw [h1]
    dsimp only
    rw [h2]
  refine ⟨fun h => ⟨hu1 h, hl1 h⟩,
    fun item h1 h2 => ⟨hu2 item h1 h2, hl2 item h1 h2⟩, ?_, rfl, rfl⟩
  intro h
  cases hi : findItem db iid with
  | none => rw [hu1 hi, hl1 hi]; exact ⟨rfl, rfl⟩
  | some item =>
    rcases h with h | h
    · rw [hi] at h
      simp at h
    · rw [hu2 item hi h, hl2 item hi h]
      exact ⟨rfl, rfl⟩

/-- Witness for C4: item 99 is not in the catalog of `db1`. -/
theorem redemption_not_found_witness :
    use_points db1 ⟨1, 99, 30⟩ 5 2 3 true = .error .itemNotFound ∧
    redeem_points_legacy db1 1 99 5 2 3 true = .error .itemNotFound :=
  (redemption_not_found db1 1 99 30 5 2 3 true).1 rfl

/-- Erase the fields the two redemption shapes are allowed to differ in:
`updated_at` on balances and the timestamps everywhere come from different
clock reads, and the flexible shape alone fills `remarks`. -/
def eraseVolatileBalance (b : UserBalance) : UserBalance :=
  { b with updated_at := 0 }

/-- Erase timestamp and `remarks` from a point-history row. -/
def eraseVolatileHist (h : PointHistory) : PointHistory :=
  { h with date := 0, remarks := none }

/-- Erase the timestamp from a redemption row. -/
def eraseVolatileRedemption (r : RedemptionHistory) : RedemptionHistory :=
  { r with date := 0 }

/-- Erase all volatile fields of a database state. -/
def eraseVolatile (db : DB) : DB :=
  { balances := db.balances.map eraseVolatileBalance,
    point_history := db.point_history.map eraseVolatileHist,
    items := db.items,
    redemption_history := db.redemption_history.map eraseVolatileRedemption }

theorem map_updateFirstBalance (l : List UserBalance) (uid : Nat)
    (g f1 f2 : UserBalance → UserBalance)
    (hfg : ∀ x, g (f1 x) = g (f2 x)) :
    (updateFirstBalance l uid f1).map g = (updateFirstBalance l uid f2).map g := by
  induction l with
  | nil => rfl
  | cons a rest ih =>
    unfold updateFirstBalance
    by_cases h : a.user_id = uid
    · simp [h, hfg]
    · rw [if_neg (by simpa using h), if_neg (by simpa using h)]
      simp only [List.map_cons]
      rw [ih]

theorem eraseVolatile_applyRedemption (db : DB) (uid iid : Nat) (amount : Int)
    (item : RedeemableItem) (rem1 rem2 : Option String) (now1 now2 rid hid : Nat) :
    eraseVolatile (applyRedemption db uid iid amount item rem1 now1 rid hid) =
      eraseVolatile (applyRedemption db uid iid amount item rem2 now2 rid hid) := by
  unfold eraseVolatile applyRedemption
  simp only [List.map_append, DB.mk.injEq]
  refine ⟨map_updateFirstBalance db.balances uid eraseVolatileBalance
    (fun b => { b with current_points := b.current_points - amount,
                       updated_at := now1 })
    (fun b => { b with current_points := b.current_points - amount,
                       updated_at := now2 })
    (fun x => rfl), ?_, trivial, ?_⟩
  · simp [eraseVolatileHist]
  · simp [eraseVolatileRedemption]

/-- C5: for every item present in storage, the legacy fixed-price redemption
and the flexible-amount redemption with `points = item.points_required` behave
identically: same error (if any), same returned `current_points`, and the same
committed state up to the fields the two paths legitimately fill differently —
the `remarks` column and the timestamps (`date`, `updated_at`); in particular
the appended `RedemptionHistory` row has the same `points_spent` and the
appended `PointHistory` row the same `description` and `points`. -/
theorem legacy_matches_flexible (db : DB) (uid iid : Nat) (item : RedeemableItem)
    (now1 now2 rid hid : Nat) (ck : Bool)
    (hi : findItem db iid = some item) :
    errorOf (redeem_points_legacy db uid iid now1 rid hid ck) =
      errorOf (use_points db ⟨uid, iid, item.points_required⟩ now2 rid hid ck) ∧
    returnedPoints (redeem_points_legacy db uid iid now1 rid hid ck) =
      returnedPoints (use_points db ⟨uid, iid, item.points_required⟩ now2 rid hid ck) ∧
    Option.map eraseVolatile
        (committedState (redeem_points_legacy db uid iid now1 rid hid ck)) =
      Option.map eraseVolatile
        (committedState (use_points db ⟨uid, iid, item.points_required⟩ now2 rid hid ck)) := by
  cases hbo : findBalance db uid with
  | none =>
    have h1 : redeem_points_legacy db uid iid now1 rid hid ck = .error .userNotFound := by
      unfold redeem_points_legacy
      rw [hi]
      dsimp only
      rw [hbo]
    have h2 : use_points db ⟨uid, iid, item.points_required⟩ now2 rid hid ck =
        .error .userNotFound := by
      unfold use_points
      dsimp only
      rw [hi]
      dsimp only
      rw [hbo]
    rw [h1, h2]
    exact ⟨rfl, rfl, rfl⟩
  | some bal =>
    by_cases hcmp : bal.current_points < item.points_required
    · have h1 : redeem_points_legacy db uid iid now1 rid hid ck =
          .error .insufficientPoints := by
        unfold redeem_points_legacy
        rw [hi, hbo]
        dsimp only
        rw [if_pos hcmp]
      have h2 : use_points db ⟨uid, iid, item.points_required⟩ now2 rid hid ck =
          .error .insufficientPoints := by
        unfold use_points
        dsimp only
        rw [hi, hbo]
        dsimp only
        rw [if_pos hcmp]
      rw [h1, h2]
      exact ⟨rfl, rfl, rfl⟩
    · cases ck with
      | false =>
        have h1 : redeem_points_legacy db uid iid now1 rid hid false =
            .error .storageFailure := by
          unfold redeem_points_legacy
          rw [hi, hbo]
          dsimp only
          rw [if_neg hcmp]
          rfl
        have h2 : use_points db ⟨uid, iid, item.points_required⟩ now2 rid hid false =
            .error .storageFailure := by
          unfold use_points
          dsimp only
          rw [hi, hbo]
          dsimp only
          rw [if_neg hcmp]
          rfl
        rw [h1, h2]
        exact ⟨rfl, rfl, rfl⟩
      | true =>
        rw [legacy_ok_of_le db uid iid item bal now1 rid hid hi hbo (not_lt.mp hcmp),
          use_points_ok_of_le db uid iid item.points_required item bal now2 rid hid hi hbo
            (not_lt.mp hcmp)]
        exact ⟨rfl, rfl, congrArg some
          (eraseVolatile_applyRedemption db uid iid item.points_required item
            none (some ("アイテム交換: " ++ item.name)) now1 now2 rid hid)⟩

/-- Witness for C5: both shapes redeem item 1 for user 1 from `db1`, with
different clock reads. -/
theorem legacy_matches_flexible_witness :
    errorOf (redeem_points_legacy db1 1 1 4 2 3 true) =
      errorOf (use_points db1 ⟨1, 1, item1.points_required⟩ 9 2 3 true) ∧
    returnedPoints (redeem_points_legacy db1 1 1 4 2 3 true) =
      returnedPoints (use_points db1 ⟨1, 1, item1.points_required⟩ 9 2 3 true) ∧
    Option.map eraseVolatile
        (committedState (redeem_points_legacy db1 1 1 4 2 3 true)) =
      Option.map eraseVolatile
        (committedState (use_points db1 ⟨1, 1, item1.points_required⟩ 9 2 3 true)) :=
  legacy_matches_flexible db1 1 1 item1 4 9 2 3 true rfl

/-- C6 counterexample: `use_points` accepts `points = 0` — with user 1 at 100
points and item 1 in storage the call succeeds and appends a
`RedemptionHistory` row whose `points_spent` is `0`, which is not a positive
integer; so not every produced redemption record has positive `points_spent`. -/
theorem use_points_zero_spent :
    returnedPoints (use_points db1 ⟨1, 1, 0⟩ 5 2 3 true) = some 100 ∧
    (persistedState db1 (use_points db1 ⟨1, 1, 0⟩ 5 2 3 true)).redemption_history =
      [{ id := 2, user_id := 1, item_id := 1, date := 5, points_spent := 0 }] ∧
    ¬(0 < (0 : Int)) := by
  refine ⟨by decide, by decide, by decide⟩

/-- C6 (amended): every `RedemptionHistory` row produced by either redemption
operation has `points_spent` equal to the amount actually debited from the
user's `current_points` (the item's `points_required` on the legacy path, the
caller-supplied `points` on the flexible path); on the flexible path that
amount may be zero or negative, so `points_spent` is not necessarily positive. -/
theorem points_spent_equals_debit (db : DB) (uid iid : Nat) (amount : Int)
    (bal : UserBalance) (now rid hid : Nat) (ck : Bool)
    (hb : findBalance db uid = some bal) :
    (∀ db2 ret, use_points db ⟨uid, iid, amount⟩ now rid hid ck = .ok (db2, ret) →
      db2.redemption_history = db.redemption_history ++
        [{ id := rid, user_id := uid, item_id := iid, date := now,
           points_spent := amount }] ∧
      balanceOf db2 uid = some (bal.current_points - amount)) ∧
    (∀ db3 ret, redeem_points_legacy db uid iid now rid hid ck = .ok (db3, ret) →
      ∃ item, findItem db iid = some item ∧
        db3.redemption_history = db.redemption_history ++
          [{ id := rid, user_id := uid, item_id := iid, date := now,
             points_spent := item.points_required }] ∧
        balanceOf db3 uid = some (bal.current_points - item.points_required)) := by
  constructor
  · intro db2 ret hok
    unfold use_points at hok
    dsimp only at hok
    cases hi : findItem db iid with
    | none =>
      rw [hi] at hok
      simp at hok
    | some item =>
      rw [hi, hb] at hok
      dsimp only at hok
      by_cases hcmp : bal.current_points < amount
      · rw [if_pos hcmp] at hok
        simp at hok
      · rw [if_neg hcmp] at hok
        cases ck with
        | false => simp at hok
        | true =>
          rw [if_pos rfl] at hok
          rw [Except.ok.injEq, Prod.mk.injEq] at hok
          obtain ⟨h1, _⟩ := hok
          subst h1
          exact ⟨rfl, balanceOf_applyRedemption db uid iid amount item _ now rid hid bal hb⟩
  · intro db3 ret hok
    unfold redeem_points_legacy at hok
    cases hi : findItem db iid with
    | none =>
      rw [hi] at hok
      simp at hok
    | some item =>
      rw [hi, hb] at hok
      dsimp only at hok
      by_cases hcmp : bal.current_points < item.points_required
      · rw [if_pos hcmp] at hok
        simp at hok
      · rw [if_neg hcmp] at hok
        cases ck with
        | false => simp at hok
        | true =>
          rw [if_pos rfl] at hok
          rw [Except.ok.injEq, Prod.mk.injEq] at hok
          obtain ⟨h1, _⟩ := hok
          subst h1
          exact ⟨item, rfl, rfl,
            balanceOf_applyRedemption db uid iid item.points_required item none now rid hid bal hb⟩

/-- Witness for C6's amended theorem: the successful flexible redemption of
item 1 by user 1 for 30 points from `db1`. -/
theorem points_spent_equals_debit_witness :
    (applyRedemption db1 1 1 30 item1
        (some ("アイテム交換: " ++ item1.name)) 5 2 3).redemption_history =
      db1.redemption_history ++
        [{ id := 2, user_id := 1, item_id := 1, date := 5, points_spent := 30 }] ∧
    balanceOf (applyRedemption db1 1 1 30 item1
        (some ("アイテム交換: " ++ item1.name)) 5 2 3) 1 =
      some (bal1.current_points - 30) :=
  (points_spent_equals_debit db1 1 1 30 bal1 5 2 3 true rfl).1
    (applyRedemption db1 1 1 30 item1
      (some ("アイテム交換: " ++ item1.name)) 5 2 3)
    (bal1.current_points - 30) rfl

/-- C7: for a user with a balance row, `GET /users/{id}/balance` returns
exactly the fields `user_id`, `current_points`, `expiring_points` with the
stored values; the output is independent of the stored `scheduled_points`
(rewriting every row's `scheduled_points` to an arbitrary value leaves the
response unchanged, and `BalanceResponse` has no such field); without a
balance row it reports `userNotFound`, surfaced as HTTP 404. -/
theorem get_balance_shape (db : DB) (uid : Nat) :
    (∀ bal, findBalance db uid = some bal →
      get_user_balance db uid =
        .ok { user_id := uid, current_points := bal.current_points,
              expiring_points := bal.expiring_points }) ∧
    (findBalance db uid = none →
      get_user_balance db uid = .error .userNotFound ∧
      statusCode .userNotFound = 404) ∧
    (∀ s : Int,
      get_user_balance
        { db with balances :=
            db.balances.map (fun b => { b with scheduled_points := s }) } uid =
      get_user_balance db uid) := by
  refine ⟨?_, ?_, ?_⟩
  · intro bal h
    unfold get_user_balance
    rw [h]
  · intro h
    unfold get_user_balance
    rw [h]
    exact ⟨rfl, rfl⟩
  · intro s
    unfold get_user_balance findBalance
    dsimp only
    rw [List.find?_map]
    have hp : ((fun (b : UserBalance) => b.user_id == uid) ∘
        (fun b => { b with scheduled_points := s })) =
        (fun (b : UserBalance) => b.user_id == uid) := rfl
    rw [hp]
    cases h : db.balances.find? (fun b => b.user_id == uid) with
    | none => rfl
    | some bal => rfl

/-- Witness for C7: user 1 of `db1` (whose stored `scheduled_points` is 7) and
the same database with every `scheduled_points` rewritten to 42. -/
theorem get_balance_shape_witness :
    get_user_balance db1 1 =
      .ok { user_id := 1, current_points := bal1.current_points,
            expiring_points := bal1.expiring_points } ∧
    get_user_balance
      { db1 with balances :=
          db1.balances.map (fun b => { b with scheduled_points := 42 }) } 1 =
      get_user_balance db1 1 :=
  ⟨(get_balance_shape db1 1).1 bal1 rfl, (get_balance_shape db1 1).2.2 42⟩

/-- C8: with no limit, `GET /users/{id}/point-history` with
`filter_type = "earned"` returns exactly the user's history entries with
`points > 0`, with `filter_type = "used"` exactly those with `points < 0`, and
with `filter_type` unset or `"all"` all of the user's entries; in every case
the result is ordered by `date` descending. -/
theorem history_filter_and_order (db : DB) (uid : Nat) :
    (get_point_history db uid none (some "earned")).Perm
      ((db.point_history.filter (fun h => h.user_id == uid)).filter
        (fun h => decide (0 < h.points))) ∧
    (get_point_history db uid none (some "used")).Perm
      ((db.point_history.filter (fun h => h.user_id == uid)).filter
        (fun h => decide (h.points < 0))) ∧
    (get_point_history db uid none none).Perm
      (db.point_history.filter (fun h => h.user_id == uid)) ∧
    (get_point_history db uid none (some "all")).Perm
      (db.point_history.filter (fun h => h.user_id == uid)) ∧
    (∀ ft, List.Sorted histDesc (get_point_history db uid none ft)) := by
  refine ⟨?_, ?_, ?_, ?_, fun ft => ?_⟩
  · exact List.perm_insertionSort histDesc _
  · exact List.perm_insertionSort histDesc _
  · exact List.perm_insertionSort histDesc _
  · exact List.perm_insertionSort histDesc _
  · exact List.sorted_insertionSort histDesc _

/-- C9: `GET /users/{id}/point-history` truncates the date-descending result to
the first `limit` entries; the FastAPI default for an absent `limit` parameter
is 5; and a falsy `limit` — `None` or `0` — means no truncation (Python's
`if limit:`). -/
theorem history_limit_truncates (db : DB) (uid : Nat) (ft : Option String) :
    (∀ n : Int, n ≠ 0 →
      get_point_history db uid (some n) ft =
        (get_point_history db uid none ft).take n.toNat) ∧
    get_point_history db uid (some 0) ft = get_point_history db uid none ft ∧
    get_point_history_default db uid ft = get_point_history db uid (some 5) ft := by
  refine ⟨?_, ?_, rfl⟩
  · intro n hn
    unfold get_point_history
    dsimp only
    rw [if_neg (by simpa using hn)]
  · unfold get_point_history
    dsimp only
    rw [if_pos (by decide)]

/-- A history row for user 1 with the given id, date and signed points. -/
def histEntry (i : Nat) (p : Int) : PointHistory :=
  { id := i, user_id := 1, date := i, description := "e", points := p,
    remarks := none }

/-- Sample database with ten history rows of alternating sign for user 1. -/
def db10 : DB :=
  { balances := [bal1],
    point_history := [histEntry 1 10, histEntry 2 (-5), histEntry 3 20,
      histEntry 4 (-3), histEntry 5 7, histEntry 6 (-2), histEntry 7 9,
      histEntry 8 (-4), histEntry 9 11, histEntry 10 (-6)],
    items := [item1],
    redemption_history := [] }

/-- Witness for C9: ten stored entries, `limit = 5` yields the first five of
the date-descending result, `limit = 0` yields everything. -/
theorem history_limit_truncates_witness :
    get_point_history db10 1 (some 5) none =
      (get_point_history db10 1 none none).take ((5 : Int)).toNat ∧
    get_point_history db10 1 (some 0) none = get_point_history db10 1 none none :=
  ⟨(history_limit_truncates db10 1 none).1 5 (by decide),
    (history_limit_truncates db10 1 none).2.1⟩

/-- C10: the flexible-amount interface accepts negative amounts: for an item
and a balance in storage and `points < 0` (with `points ≤ current_points`, so
the `current_points < points` check cannot fire), `use_points` succeeds, the
balance increases by `|points|`, the appended `RedemptionHistory` row has
negative `points_spent`, and the appended `PointHistory` row has positive
`points` — a negative amount credits the balance. -/
theorem negative_points_credit (db : DB) (uid iid : Nat) (amount : Int)
    (item : RedeemableItem) (bal : UserBalance) (now rid hid : Nat)
    (hi : findItem db iid = some item)
    (hb : findBalance db uid = some bal)
    (hneg : amount < 0)
    (hle : amount ≤ bal.current_points) :
    ∃ db2, use_points db ⟨uid, iid, amount⟩ now rid hid true =
        .ok (db2, bal.current_points - amount) ∧
      balanceOf db2 uid = some (bal.current_points - amount) ∧
      bal.current_points - amount = bal.current_points + |amount| ∧
      bal.current_points < bal.current_points - amount ∧
      db2.redemption_history = db.redemption_history ++
        [{ id := rid, user_id := uid, item_id := iid, date := now,
           points_spent := amount }] ∧
      amount < 0 ∧
      db2.point_history = db.point_history ++
        [{ id := hid, user_id := uid, date := now,
           description := item.name ++ "と交換", points := -amount,
           remarks := some ("アイテム交換: " ++ item.name) }] ∧
      0 < -amount := by
  refine ⟨applyRedemption db uid iid amount item
      (some ("アイテム交換: " ++ item.name)) now rid hid,
    use_points_ok_of_le db uid iid amount item bal now rid hid hi hb hle,
    balanceOf_applyRedemption db uid iid amount item _ now rid hid bal hb,
    ?_, ?_, rfl, hneg, rfl, ?_⟩
  · rw [abs_of_neg hneg]
    ring
  · omega
  · omega

/-- Witness for C10: user 1 at 100 points sends `points = -5` for item 1. -/
theorem negative_points_credit_witness :
    ∃ db2, use_points db1 ⟨1, 1, -5⟩ 5 2 3 true =
        .ok (db2, bal1.current_points - (-5)) ∧
      balanceOf db2 1 = some (bal1.current_points - (-5)) ∧
      bal1.current_points - (-5) = bal1.current_points + |(-5 : Int)| ∧
      bal1.current_points < bal1.current_points - (-5) ∧
      db2.redemption_history = db1.redemption_history ++
        [{ id := 2, user_id := 1, item_id := 1, date := 5,
           points_spent := -5 }] ∧
      (-5 : Int) < 0 ∧
      db2.point_history = db1.point_history ++
        [{ id := 3, user_id := 1, date := 5,
           description := item1.name ++ "と交換", points := -(-5),
           remarks := some ("アイテム交換: " ++ item1.name) }] ∧
      (0 : Int) < -(-5) :=
  negative_points_credit db1 1 1 (-5) item1 bal1 5 2 3 rfl rfl (by decide) (by decide)

end PointBack
